import Mathlib

/-!
Shallow embedding of the session-coordinator logic of the zego-digital-human
repository: the room-message handler of `src/client/src/hooks/useInterview.ts`
(transcript and response-delta reconstruction, the interview reducer) and the
stream/session logic of `src/client/src/services/zego.ts` (retry backoff,
join/leave, playback functions, the duplicate-add race).
-/

namespace DigitalHuman

/-! ### Association-list maps, modelling JavaScript `Map` -/

/-- `Map.get`: the value stored at `k`, if any. -/
def mapFind {α β : Type} [DecidableEq α] (m : List (α × β)) (k : α) : Option β :=
  (m.find? (fun p => decide (p.1 = k))).map Prod.snd

/-- `Map.set`: overwrite in place if the key exists (JS `Map` keeps insertion
order on overwrite), otherwise append. -/
def mapSet {α β : Type} [DecidableEq α] (m : List (α × β)) (k : α) (v : β) :
    List (α × β) :=
  if m.any (fun p => decide (p.1 = k)) then
    m.map (fun p => if p.1 = k then (k, v) else p)
  else m ++ [(k, v)]

/-- `Map.delete`. -/
def mapDel {α β : Type} [DecidableEq α] (m : List (α × β)) (k : α) :
    List (α × β) :=
  m.filter (fun p => decide (p.1 ≠ k))

/-- JS `a || b` on an optional string: empty string is falsy. -/
def jsOr (o : Option String) (d : String) : String :=
  match o with
  | some s => if s = "" then d else s
  | none => d

/-- JS `String.prototype.trim`: strip leading and trailing whitespace. -/
def jsTrim (s : String) : String :=
  String.mk (((s.data.dropWhile Char.isWhitespace).reverse.dropWhile
    Char.isWhitespace).reverse)

/-! ### Data model of `useInterview.ts` -/

/-- `agentStatus` values of the interview state. -/
inductive AgentStatus where
  | idle
  | listening
  | thinking
  | speaking
deriving DecidableEq, Repr

/-- `Message.sender` values. -/
inductive Sender where
  | user
  | ai
deriving DecidableEq, Repr

/-- The `Message` record of `src/client/src/types`: fields used by the
room-message handler. -/
structure Message where
  id : String
  content : String
  sender : Sender
  timestamp : Nat
  mtype : String
  transcript : Option String
  isStreaming : Option Bool
deriving DecidableEq, Repr

/-- The reducer-owned part of `InterviewState` that the room-message handler
touches. -/
structure InterviewState where
  messages : List Message
  currentTranscript : String
  agentStatus : AgentStatus
deriving DecidableEq, Repr

/-- The reducer actions dispatched by `handleRoomMessage`. -/
inductive Action where
  | addMessage (m : Message)
  | updateMessage (id : String) (content : String) (streaming : Bool)
  | setTranscript (t : String)
  | setStatus (s : AgentStatus)
deriving DecidableEq, Repr

/-- `interviewReducer` (the cases reachable from `handleRoomMessage`).
`ADD_MESSAGE` replaces in place when a message with the same id exists,
otherwise appends; `UPDATE_MESSAGE` merges `{content, isStreaming}` into the
matching message. -/
def interviewReducer (st : InterviewState) (a : Action) : InterviewState :=
  match a with
  | .addMessage m =>
    if st.messages.any (fun x => decide (x.id = m.id)) then
      { st with messages := st.messages.map (fun x => if x.id = m.id then m else x) }
    else
      { st with messages := st.messages ++ [m] }
  | .updateMessage i c b =>
    let upd := fun (x : Message) =>
      if x.id = i then { x with content := c, isStreaming := some b } else x
    { st with messages := st.messages.map upd }
  | .setTranscript t => { st with currentTranscript := t }
  | .setStatus s => { st with agentStatus := s }

/-- The mutable refs of `useInterview` that `handleRoomMessage` reads and
writes, bundled with the reducer state. -/
structure HandlerState where
  ui : InterviewState
  processedMessageIds : List String
  asrSeqMap : List (String × Int)
  llmBuffers : List (String × List (Int × String))
deriving DecidableEq, Repr

/-- A decoded room control message `{Cmd, SeqId, Data: {Text, MessageId, EndFlag}}`.
`seqId` is `none` when `typeof SeqId !== 'number'`; `text` and `messageId` are
`none` when the field is absent. -/
structure RoomMsg where
  cmd : Nat
  seqId : Option Int
  text : Option String
  endFlag : Bool
  messageId : Option String
deriving DecidableEq, Repr

/-- `Array.from(map.entries()).sort((a,b)=>a[0]-b[0]).map(([,c])=>c).join('')`:
the buffered fragments concatenated in ascending `seqId` order. -/
def orderedChunks (buf : List (Int × String)) : String :=
  String.join ((buf.insertionSort (fun a b => a.1 ≤ b.1)).map Prod.snd)

/-- The `EndFlag` body of the Cmd 3 branch plus the two accepted-event
dispatches: set the transcript, go to `listening`, and on the end flag emit the
finalized user turn via `addMessageSafely` (guarded by `processedMessageIds`),
clear the transcript, go to `thinking` and drop the per-message seq tracker. -/
def handleCmd3Accept (now : Nat) (s : HandlerState) (e : RoomMsg)
    (transcript mid : String) (asr : List (String × Int)) : HandlerState :=
  let ui1 := interviewReducer (interviewReducer s.ui (.setTranscript transcript))
    (.setStatus .listening)
  if e.endFlag then
    let messageId := jsOr e.messageId ("voice_" ++ toString now)
    let m : Message :=
      ⟨messageId, jsTrim transcript, .user, now, "voice", some (jsTrim transcript), none⟩
    let processed :=
      if messageId ∈ s.processedMessageIds then s.processedMessageIds
      else s.processedMessageIds ++ [messageId]
    let ui2 :=
      if messageId ∈ s.processedMessageIds then ui1
      else interviewReducer ui1 (.addMessage m)
    let ui3 := interviewReducer (interviewReducer ui2 (.setTranscript ""))
      (.setStatus .thinking)
    { ui := ui3, processedMessageIds := processed,
      asrSeqMap := mapDel asr mid, llmBuffers := s.llmBuffers }
  else
    { ui := ui1, processedMessageIds := s.processedMessageIds,
      asrSeqMap := asr, llmBuffers := s.llmBuffers }

/-- The Cmd 4 emission step shared by the `EndFlag` and streaming branches. -/
def handleCmd4Emit (now : Nat) (s : HandlerState) (mid ordered : String)
    (buffers : List (String × List (Int × String))) (isEnd : Bool) :
    HandlerState :=
  let processed :=
    if mid ∈ s.processedMessageIds then s.processedMessageIds
    else s.processedMessageIds ++ [mid]
  let ui1 :=
    if mid ∈ s.processedMessageIds then
      interviewReducer s.ui (.updateMessage mid ordered (!isEnd))
    else
      interviewReducer s.ui
        (.addMessage ⟨mid, ordered, .ai, now, "text", none, some (!isEnd)⟩)
  if isEnd then
    { ui := interviewReducer ui1 (.setStatus .idle),
      processedMessageIds := processed, asrSeqMap := s.asrSeqMap,
      llmBuffers := mapDel buffers mid }
  else
    { ui := interviewReducer ui1 (.setStatus .speaking),
      processedMessageIds := processed, asrSeqMap := s.asrSeqMap,
      llmBuffers := buffers }

/-- `handleRoomMessage` of `useInterview.ts` (the non-throwing path of the
`try` block), as a pure state transformer. `now` stands for `Date.now()`. -/
def handleRoomMessage (now : Nat) (s : HandlerState) (e : RoomMsg) :
    HandlerState :=
  if e.cmd = 3 then
    match e.text with
    | none => s
    | some transcript =>
      if jsTrim transcript = "" then s
      else
        let mid := jsOr e.messageId "asr_default"
        let last := (mapFind s.asrSeqMap mid).getD (-1)
        match e.seqId with
        | some n =>
          if n < last then s
          else handleCmd3Accept now s e transcript mid (mapSet s.asrSeqMap mid n)
        | none => handleCmd3Accept now s e transcript mid s.asrSeqMap
  else if e.cmd = 4 then
    match e.text, e.messageId with
    | some content, some mid =>
      if content = "" ∨ mid = "" then s
      else
        let seqId := e.seqId.getD 0
        let buf := (mapFind s.llmBuffers mid).getD []
        let buf1 := mapSet buf seqId content
        let buffers := mapSet s.llmBuffers mid buf1
        handleCmd4Emit now s mid (orderedChunks buf1) buffers e.endFlag
    | _, _ => s
  else s

/-- The `catch` block of `handleRoomMessage`: any error while handling a
control event resets the agent status to `idle`. -/
def handleRoomMessageCatch (s : HandlerState) : HandlerState :=
  { s with ui := interviewReducer s.ui (.setStatus .idle) }

/-- Fold a list of room messages through the handler. -/
def runEvents (now : Nat) (s : HandlerState) (evs : List RoomMsg) :
    HandlerState :=
  evs.foldl (handleRoomMessage now) s

/-- The initial handler state: empty messages, empty transcript, `idle`
status, empty trackers. -/
def initialHandlerState : HandlerState :=
  ⟨⟨[], "", .idle⟩, [], [], []⟩

/-- The `endInterview` dispatches of `useInterview.ts` restricted to the
reducer fields modelled here: status back to `idle`, transcript cleared. -/
def endInterviewUI (ui : InterviewState) : InterviewState :=
  { ui with agentStatus := .idle, currentTranscript := "" }

/-! ### Data model of `services/zego.ts` (`ZegoService`) -/

/-- The `ZegoService` fields the verified operations read and write.
`retryTimerPending` abstracts `dhPlayRetryTimer !== null`; element refs are
abstracted to presence booleans and `srcObject` assignment flags. -/
structure ZegoState where
  zgInit : Bool
  currentRoomId : Option String
  currentUserId : Option String
  localStream : Bool
  hasAudioElem : Bool
  hasVideoElem : Bool
  audioSrcSet : Bool
  videoSrcSet : Bool
  videoReady : Bool
  retryTimerPending : Bool
  dhPlayRetryCount : Nat
  dhVideoStreamId : Option String
  agentAudioStreamId : Option String
  voiceEnabled : Bool
  playingStreamIds : List String
deriving DecidableEq, Repr

/-- `MAX_DH_PLAY_RETRY = 6`. -/
def MAX_DH_PLAY_RETRY : Nat := 6

/-- `Set.add`: append only when absent. -/
def setAdd (l : List String) (s : String) : List String :=
  if s ∈ l then l else l ++ [s]

/-- The next retry delay computed inside the retry timer:
`Math.min(delay * 1.5, 8000)`. -/
def nextRetryDelay (d : ℚ) : ℚ :=
  min (d * (3 / 2)) 8000

/-- The delays of the successive retry timers fired by
`scheduleDigitalHumanRetry` when the stream id stays set, the stream never
reaches the playing set, and every playback attempt fails: the guard stops
once `dhPlayRetryCount` reaches `MAX_DH_PLAY_RETRY`; each fired timer bumps
the count to `attempt = count + 1` and reschedules with
`nextRetryDelay delay`. -/
def dhRetryDelays (count : Nat) (delay : ℚ) : List ℚ :=
  if count < MAX_DH_PLAY_RETRY then
    delay :: dhRetryDelays (count + 1) (nextRetryDelay delay)
  else []
termination_by MAX_DH_PLAY_RETRY - count
decreasing_by omega

/-- `leaveRoom()`. `logoutOk = false` models any of the awaited teardown
steps throwing: the `catch` only nulls the room/user refs and the local
stream. Neither path touches `playingStreamIds` or `agentAudioStreamId`. -/
def leaveRoom (st : ZegoState) (logoutOk : Bool) : ZegoState :=
  if st.zgInit = false ∨ st.currentRoomId = none then st
  else if logoutOk then
    { st with
      localStream := false
      audioSrcSet := false
      videoSrcSet := false
      videoReady := false
      retryTimerPending := false
      dhPlayRetryCount := 0
      dhVideoStreamId := none
      voiceEnabled := false
      currentRoomId := none
      currentUserId := none }
  else
    { st with currentRoomId := none, currentUserId := none, localStream := false }

/-- Outcome of the transport-layer calls a join performs, collapsed to the
first failing step (`ok` when all succeed). -/
inductive JoinOutcome where
  | ok
  | tokenFail
  | loginFail
  | createStreamFail
  | publishFail
deriving DecidableEq, Repr

/-- The body of `joinRoom` after the same-room early return and the
leave-previous-room step: set the session refs, run the fallible steps, and
on any failure null the refs and report `false`. A failure after
`createStream` leaves the created local stream behind (the `catch` does not
release it). -/
def joinRoomFresh (st : ZegoState) (roomId userId : String)
    (o : JoinOutcome) : Bool × ZegoState :=
  let st2 := { st with currentRoomId := some roomId, currentUserId := some userId }
  match o with
  | .ok => (true, { st2 with localStream := true })
  | .publishFail =>
    (false, { st2 with localStream := true, currentRoomId := none, currentUserId := none })
  | _ => (false, { st2 with currentRoomId := none, currentUserId := none })

/-- `joinRoom(roomId, userId)`: engine guard, same-target early success,
leave of any previous room, then the fallible connection steps. -/
def joinRoom (st : ZegoState) (roomId userId : String)
    (o : JoinOutcome) : Bool × ZegoState :=
  if st.zgInit = false then (false, st)
  else if st.currentRoomId = some roomId ∧ st.currentUserId = some userId then
    (true, st)
  else
    joinRoomFresh (if st.currentRoomId ≠ none then leaveRoom st true else st)
      roomId userId o

/-- Result of an awaited `zg.startPlayingStream` call: a media stream with
the given track counts, a null result, or a thrown error with a code. -/
inductive PlayOutcome where
  | ok (videoTracks audioTracks : Nat)
  | noStream
  | err (code : Int)
deriving DecidableEq, Repr

/-- `playUnifiedStream(streamId)`. `gotFrame` is the result of the bounded
`waitForFirstFrame` wait. The `catch` treats error code 1103049
("already playing") as success: mark playing, set video ready, return true. -/
def playUnifiedStream (st : ZegoState) (streamId : String)
    (outcome : PlayOutcome) (gotFrame : Bool) : Bool × ZegoState :=
  if st.zgInit = false then (false, st)
  else if st.hasVideoElem = false ∨ st.hasAudioElem = false then (false, st)
  else if streamId ∈ st.playingStreamIds then (true, st)
  else
    match outcome with
    | .noStream => (false, st)
    | .ok v a =>
      let hasVideo := decide (0 < v)
      let hasAudio := decide (0 < a)
      let st1 :=
        if hasVideo then
          { st with
            videoSrcSet := true
            videoReady := gotFrame
            retryTimerPending := false
            dhPlayRetryCount := 0
            playingStreamIds := setAdd st.playingStreamIds streamId }
        else st
      let st2 := if hasAudio then { st1 with audioSrcSet := true } else st1
      (hasVideo || hasAudio, st2)
    | .err c =>
      if c = 1103049 then
        (true, { st with
          playingStreamIds := setAdd st.playingStreamIds streamId
          videoReady := true })
      else (false, { st with videoReady := false })

/-- `playDigitalHumanVideoStream(streamId)`: video-only variant; a stream
with no video tracks is treated as failure; same 1103049 convergence. -/
def playDigitalHumanVideoStream (st : ZegoState) (streamId : String)
    (outcome : PlayOutcome) (gotFrame : Bool) : Bool × ZegoState :=
  if st.zgInit = false then (false, st)
  else if st.hasVideoElem = false then (false, st)
  else if streamId ∈ st.playingStreamIds then (true, st)
  else
    match outcome with
    | .noStream => (false, st)
    | .ok v _ =>
      if v = 0 then (false, st)
      else
        (true, { st with
          videoSrcSet := true
          videoReady := gotFrame
          retryTimerPending := false
          dhPlayRetryCount := 0
          playingStreamIds := setAdd st.playingStreamIds streamId })
    | .err c =>
      if c = 1103049 then
        (true, { st with
          playingStreamIds := setAdd st.playingStreamIds streamId
          videoReady := true })
      else (false, { st with videoReady := false })

/-- `playAgentAudioStream(streamId)`: audio-only variant; no video-ready or
retry bookkeeping; same 1103049 convergence. -/
def playAgentAudioStream (st : ZegoState) (streamId : String)
    (outcome : PlayOutcome) : Bool × ZegoState :=
  if st.zgInit = false then (false, st)
  else if st.hasAudioElem = false then (false, st)
  else if streamId ∈ st.playingStreamIds then (true, st)
  else
    match outcome with
    | .noStream => (false, st)
    | .ok _ a =>
      if a = 0 then (false, st)
      else
        (true, { st with
          audioSrcSet := true
          playingStreamIds := setAdd st.playingStreamIds streamId })
    | .err c =>
      if c = 1103049 then
        (true, { st with playingStreamIds := setAdd st.playingStreamIds streamId })
      else (false, st)

/-! ### The duplicate add-notification race

Two `roomStreamUpdate ADD` handler invocations for the same stream id. Each
runs two atomic steps on the shared service state: the `isStreamPlaying`
guard, then (if the guard passed) the awaited `startPlayingStream` call with
its resolution — `markStreamPlaying` happens only inside that second step,
either after the call resolves or in the 1103049 `catch`. A schedule is an
arbitrary interleaving of the two handlers' steps. -/

/-- Progress of one add-handler invocation: before its `isStreamPlaying`
guard, past the guard and about to call the transport, or finished. -/
inductive DupPC where
  | start
  | ready
  | done
deriving DecidableEq, Repr

/-- Shared state of the two racing add-handlers. `playing` abstracts
`streamId ∈ playingStreamIds`; `transportStartCount` counts transitions of
the transport from not-started to started; `startPlayingCalls` counts
`startPlayingStream` invocations; `calledN`/`pcN` are per-handler progress. -/
structure DupAddState where
  playing : Bool
  transportStarted : Bool
  transportStartCount : Nat
  startPlayingCalls : Nat
  called1 : Bool
  called2 : Bool
  pc1 : DupPC
  pc2 : DupPC
deriving DecidableEq, Repr

/-- One atomic step of handler 1 (`who = true`) or handler 2
(`who = false`): at pc 0 the guard (skip to done if already playing); at pc 1
the transport call — a call when the transport already started the stream
throws 1103049, which the `catch` converts to success and a
`markStreamPlaying`, so `playing` becomes true on either branch while the
transport only starts the stream when it had not already. -/
def dupStep (s : DupAddState) (who : Bool) : DupAddState :=
  match who with
  | true =>
    match s.pc1 with
    | .start =>
      match s.playing with
      | true => { s with pc1 := .done }
      | false => { s with pc1 := .ready }
    | .ready =>
      { s with
        pc1 := .done
        called1 := true
        startPlayingCalls := s.startPlayingCalls + 1
        playing := true
        transportStarted := true
        transportStartCount :=
          match s.transportStarted with
          | true => s.transportStartCount
          | false => s.transportStartCount + 1 }
    | .done => s
  | false =>
    match s.pc2 with
    | .start =>
      match s.playing with
      | true => { s with pc2 := .done }
      | false => { s with pc2 := .ready }
    | .ready =>
      { s with
        pc2 := .done
        called2 := true
        startPlayingCalls := s.startPlayingCalls + 1
        playing := true
        transportStarted := true
        transportStartCount :=
          match s.transportStarted with
          | true => s.transportStartCount
          | false => s.transportStartCount + 1 }
    | .done => s

/-- Initial race state: stream untracked, transport idle. -/
def dupInit : DupAddState :=
  ⟨false, false, 0, 0, false, false, .start, .start⟩

/-- Run a schedule (interleaving) of the two handlers. -/
def dupRun (sched : List Bool) : DupAddState :=
  sched.foldl dupStep dupInit

/-- Inductive invariant of the race: `playing` mirrors the transport state,
the transport starts at most once, and calls are accounted per handler. -/
def DupInv (s : DupAddState) : Prop :=
  s.playing = s.transportStarted ∧
  s.transportStartCount = (if s.transportStarted then 1 else 0) ∧
  s.startPlayingCalls =
    (if s.called1 then 1 else 0) + (if s.called2 then 1 else 0) ∧
  (s.called1 = true → s.pc1 = .done ∧ s.playing = true) ∧
  (s.called2 = true → s.pc2 = .done ∧ s.playing = true) ∧
  (s.pc1 = .done → s.called1 = true ∨ s.playing = true) ∧
  (s.pc2 = .done → s.called2 = true ∨ s.playing = true) ∧
  (s.playing = true → s.called1 = true ∨ s.called2 = true)

/-! ### Concrete inputs used by the claim instances -/

/-- A Cmd 3 (TranscriptDelta) event for message id `m1`. -/
def ev3 (sq : Int) (t : String) (endf : Bool) : RoomMsg :=
  ⟨3, some sq, some t, endf, some "m1"⟩

/-- A Cmd 4 (ResponseDelta) event for message id `r1`. -/
def ev4 (sq : Int) (t : String) (endf : Bool) : RoomMsg :=
  ⟨4, some sq, some t, endf, some "r1"⟩

/-- The fragment set of the sequence-order reconstruction property. -/
def c1Frags : List (Int × String) :=
  [(0, "Hel"), (1, "lo "), (2, "world")]

/-- Deliver a fragment list as ResponseDelta events, the last one carrying
the end flag. -/
def mkResponseEvents : List (Int × String) → List RoomMsg
  | [] => []
  | [p] => [ev4 p.1 p.2 true]
  | p :: rest => ev4 p.1 p.2 false :: mkResponseEvents rest

/-- The status round-trip event sequence: non-final transcript, final
transcript, response fragment, final response fragment. -/
def c6Events : List RoomMsg :=
  [ev3 0 "hi" false, ev3 1 "hi there" true, ev4 0 "He" false, ev4 1 "y" true]

/-- An active session with one tracked playing stream, used to exercise
`leaveRoom`. -/
def activeSessionState : ZegoState :=
  { zgInit := true, currentRoomId := some "room1", currentUserId := some "u1",
    localStream := true, hasAudioElem := true, hasVideoElem := true,
    audioSrcSet := true, videoSrcSet := true, videoReady := true,
    retryTimerPending := true, dhPlayRetryCount := 2,
    dhVideoStreamId := some "dh_video", agentAudioStreamId := some "dh_video",
    voiceEnabled := true, playingStreamIds := ["dh_video"] }

/-- A handler state that has already accepted a seq 2 transcript for
message id `m1`. -/
def c3WitnessState : HandlerState :=
  ⟨⟨[], "", .idle⟩, [], [("m1", 2)], []⟩

/-! ## Helper lemmas -/

/-- `interviewReducer` never produces two messages with the same id from a
state without duplicates: `ADD_MESSAGE` replaces in place or appends a fresh
id, `UPDATE_MESSAGE` keeps ids unchanged. -/
theorem interviewReducer_nodup (ui : InterviewState) (a : Action)
    (h : (ui.messages.map Message.id).Nodup) :
    ((interviewReducer ui a).messages.map Message.id).Nodup := by
  cases a with
  | addMessage m =>
    by_cases hmem : ui.messages.any (fun x => decide (x.id = m.id))
    · have hids : (ui.messages.map (fun x => if x.id = m.id then m else x)).map
          Message.id = ui.messages.map Message.id := by
        rw [List.map_map]
        apply List.map_congr_left
        intro x _
        by_cases hid : x.id = m.id
        · simp [hid]
        · simp [hid]
      simpa [interviewReducer, hmem, hids] using h
    · have hnot : m.id ∉ ui.messages.map Message.id := by
        intro hc
        rcases List.mem_map.mp hc with ⟨x, hx, hxid⟩
        exact hmem (List.any_eq_true.mpr ⟨x, hx, by simp [hxid]⟩)
      simp only [interviewReducer, hmem, if_false, Bool.false_eq_true,
        List.map_append, List.map_cons, List.map_nil]
      rw [List.nodup_append]
      refine ⟨h, List.nodup_singleton _, ?_⟩
      intro x hx hsing
      rcases List.mem_singleton.mp hsing with rfl
      exact hnot hx
  | updateMessage i c b =>
    have hids : (ui.messages.map (fun x =>
        if x.id = i then { x with content := c, isStreaming := some b } else x)).map
          Message.id = ui.messages.map Message.id := by
      rw [List.map_map]
      apply List.map_congr_left
      intro x _
      by_cases hid : x.id = i
      · simp [hid]
      · simp [hid]
    simpa [interviewReducer, hids] using h
  | setTranscript t => simpa [interviewReducer] using h
  | setStatus s => simpa [interviewReducer] using h

/-- The Cmd 3 accept path only touches messages through the reducer, so id
uniqueness is preserved. -/
theorem handleCmd3Accept_nodup (now : Nat) (s : HandlerState) (e : RoomMsg)
    (t mid : String) (asr : List (String × Int))
    (h : (s.ui.messages.map Message.id).Nodup) :
    ((handleCmd3Accept now s e t mid asr).ui.messages.map Message.id).Nodup := by
  simp only [handleCmd3Accept]
  split_ifs with h1 h2 <;>
    repeat'
      first
        | exact h
        | apply interviewReducer_nodup

/-- The Cmd 4 emission path only touches messages through the reducer, so id
uniqueness is preserved. -/
theorem handleCmd4Emit_nodup (now : Nat) (s : HandlerState) (mid ordered : String)
    (buffers : List (String × List (Int × String))) (isEnd : Bool)
    (h : (s.ui.messages.map Message.id).Nodup) :
    ((handleCmd4Emit now s mid ordered buffers isEnd).ui.messages.map
      Message.id).Nodup := by
  simp only [handleCmd4Emit]
  split_ifs with h1 h2 <;>
    repeat'
      first
        | exact h
        | apply interviewReducer_nodup

/-- Every branch of the room-message handler preserves id uniqueness of the
message list. -/
theorem handleRoomMessage_nodup (now : Nat) (s : HandlerState) (e : RoomMsg)
    (h : (s.ui.messages.map Message.id).Nodup) :
    ((handleRoomMessage now s e).ui.messages.map Message.id).Nodup := by
  simp only [handleRoomMessage]
  repeat'
    first
      | exact h
      | apply handleCmd3Accept_nodup
      | apply handleCmd4Emit_nodup
      | split

/-- A stream id is always a member of the set it has just been added to. -/
theorem setAdd_self_mem (l : List String) (s : String) : s ∈ setAdd l s := by
  by_cases h : s ∈ l <;> simp [setAdd, h]

/-- The race invariant holds initially. -/
theorem dupInit_inv : DupInv dupInit := by
  simp [DupInv, dupInit]

set_option maxRecDepth 4096 in
/-- Every atomic step of either add-handler preserves the race invariant. -/
theorem dupStep_inv (s : DupAddState) (who : Bool) (h : DupInv s) :
    DupInv (dupStep s who) := by
  obtain ⟨p, ts, tc, cpc, c1, c2, pc1, pc2⟩ := s
  simp only [DupInv] at h ⊢
  obtain ⟨h1, h2, h3, h4, h5, h6, h7, h8⟩ := h
  cases who <;> cases pc1 <;> cases pc2 <;> cases p <;> cases ts <;>
    cases c1 <;> cases c2 <;>
    simp_all [dupStep]

/-- The race invariant holds after any schedule. -/
theorem dupRun_inv (sched : List Bool) : DupInv (dupRun sched) := by
  have gen : ∀ (l : List Bool) (s : DupAddState), DupInv s →
      DupInv (l.foldl dupStep s) := by
    intro l
    induction l with
    | nil => intro s hs; exact hs
    | cons b t ih =>
      intro s hs
      exact ih (dupStep s b) (dupStep_inv s b hs)
  exact gen sched dupInit dupInit_inv

/-! ## Claim theorems -/

/-- C1: for every permutation of the ResponseDelta fragments
`{(0,"Hel"), (1,"lo "), (2,"world")}` delivered in arbitrary arrival order
with the end flag on the last, the finalized turn content is
`"Hello world"` — fragments are concatenated in ascending seqId order, not
arrival order — and a later fragment at the same seqId overwrites the
earlier one. -/
theorem c1_sequence_order_reconstruction (l : List (Int × String))
    (h : l.Perm c1Frags) :
    (runEvents 7 initialHandlerState (mkResponseEvents l)).ui.messages =
      [⟨"r1", "Hello world", .ai, 7, "text", none, some false⟩] ∧
    (runEvents 7 initialHandlerState
        [ev4 0 "Hel" false, ev4 1 "X" false, ev4 1 "lo " false,
          ev4 2 "world" true]).ui.messages =
      [⟨"r1", "Hello world", .ai, 7, "text", none, some false⟩] := by
  refine ⟨?_, by decide⟩
  have hall : ∀ l' ∈ c1Frags.permutations',
      (runEvents 7 initialHandlerState (mkResponseEvents l')).ui.messages =
        [⟨"r1", "Hello world", .ai, 7, "text", none, some false⟩] := by
    decide
  exact hall l (List.mem_permutations'.mpr h)

/-- C1 witness: a concrete out-of-order delivery `[(2), (0), (1)]`
reconstructs `"Hello world"`. -/
theorem c1_witness :
    (runEvents 7 initialHandlerState
        (mkResponseEvents [(2, "world"), (0, "Hel"), (1, "lo ")])).ui.messages =
      [⟨"r1", "Hello world", .ai, 7, "text", none, some false⟩] :=
  (c1_sequence_order_reconstruction [(2, "world"), (0, "Hel"), (1, "lo ")]
    (by decide)).1

/-- C2 counterexample: in the schedule where both handlers pass the
`isStreamPlaying` guard before either playback call resolves, both
handlers complete and two `startPlayingStream` calls are issued — not
exactly one, because the code marks a stream playing only after its
asynchronous playback call returns, never before. -/
theorem c2_counterexample :
    (dupRun [true, false, true, false]).pc1 = .done ∧
    (dupRun [true, false, true, false]).pc2 = .done ∧
    (dupRun [true, false, true, false]).playing = true ∧
    ¬ (dupRun [true, false, true, false]).startPlayingCalls = 1 := by
  decide

/-- C2 amended: under any interleaving of two concurrent add-notifications
for the same stream id, once both handler invocations complete the stream
is in the playing state, the transport has started the stream exactly once
(a duplicate call is rejected with 1103049 and converted to success), and
between one and two `startPlayingStream` calls were issued. -/
theorem c2_amended (sched : List Bool)
    (h1 : (dupRun sched).pc1 = .done) (_h2 : (dupRun sched).pc2 = .done) :
    (dupRun sched).playing = true ∧
    (dupRun sched).transportStartCount = 1 ∧
    1 ≤ (dupRun sched).startPlayingCalls ∧
    (dupRun sched).startPlayingCalls ≤ 2 := by
  obtain ⟨i1, i2, i3, i4, i5, i6, i7, i8⟩ := dupRun_inv sched
  have hplay : (dupRun sched).playing = true := by
    rcases i6 h1 with hc | hp
    · exact (i4 hc).2
    · exact hp
  refine ⟨hplay, ?_, ?_, ?_⟩
  · rw [i2, ← i1, hplay]
    rfl
  · rw [i3]
    rcases i8 hplay with hc | hc <;> simp [hc]
  · rw [i3]
    split_ifs <;> omega

/-- C2 witness: the amended property at the racy schedule. -/
theorem c2_witness :
    (dupRun [true, false, true, false]).playing = true ∧
    (dupRun [true, false, true, false]).transportStartCount = 1 ∧
    1 ≤ (dupRun [true, false, true, false]).startPlayingCalls ∧
    (dupRun [true, false, true, false]).startPlayingCalls ≤ 2 :=
  c2_amended [true, false, true, false] (by decide) (by decide)

/-- C3: a TranscriptDelta whose numeric seqId is below the stored maximum
for its messageId leaves the whole state unchanged; an accepted non-final
event replaces the transcript in full; and for seqIds `[0,1,2,1]` the 4th
event is discarded, leaving the seq 2 text. -/
theorem c3_stale_transcript_rejection (now : Nat) (st : HandlerState)
    (e : RoomMsg) (t : String) (n : Int)
    (h1 : e.cmd = 3) (h2 : e.text = some t) (h3 : ¬ jsTrim t = "")
    (h4 : e.seqId = some n) :
    (n < ((mapFind st.asrSeqMap (jsOr e.messageId "asr_default")).getD (-1)) →
      handleRoomMessage now st e = st) ∧
    (¬ n < ((mapFind st.asrSeqMap (jsOr e.messageId "asr_default")).getD (-1)) →
      e.endFlag = false →
      (handleRoomMessage now st e).ui.currentTranscript = t) ∧
    runEvents 7 initialHandlerState
        [ev3 0 "a" false, ev3 1 "ab" false, ev3 2 "abc" false, ev3 1 "ab" false] =
      runEvents 7 initialHandlerState
        [ev3 0 "a" false, ev3 1 "ab" false, ev3 2 "abc" false] ∧
    (runEvents 7 initialHandlerState
        [ev3 0 "a" false, ev3 1 "ab" false, ev3 2 "abc" false, ev3 1 "ab" false]
      ).ui.currentTranscript = "abc" := by
  refine ⟨?_, ?_, by decide, by decide⟩
  · intro hlt
    simp [handleRoomMessage, h1, h2, h3, h4, hlt]
  · intro hge hend
    simp [handleRoomMessage, h1, h2, h3, h4, hge, handleCmd3Accept, hend,
      interviewReducer]

/-- C3 witness: a seq 1 event against a stored maximum of 2 is a no-op. -/
theorem c3_witness :
    handleRoomMessage 7 c3WitnessState (ev3 1 "ab" false) = c3WitnessState :=
  (c3_stale_transcript_rejection 7 c3WitnessState (ev3 1 "ab" false) "ab" 1
    rfl rfl (by decide) rfl).1 (by decide)

/-- C4: the message list holds at most one message per id in every state
reachable by the handler (id uniqueness is preserved by every event), and
replaying a finalization event for an already-finalized turn id updates the
existing turn in place instead of inserting a duplicate. -/
theorem c4_at_most_once_finalization (now : Nat) (s : HandlerState)
    (e : RoomMsg) (h : (s.ui.messages.map Message.id).Nodup) :
    ((handleRoomMessage now s e).ui.messages.map Message.id).Nodup ∧
    ((runEvents 7 initialHandlerState
        (mkResponseEvents c1Frags ++ [ev4 2 "world" true])).ui.messages.map
      Message.id) = ["r1"] :=
  ⟨handleRoomMessage_nodup now s e h, by decide⟩

/-- C4 witness: uniqueness is preserved from the empty initial state. -/
theorem c4_witness :
    ((handleRoomMessage 7 initialHandlerState (ev4 0 "He" false)).ui.messages.map
      Message.id).Nodup :=
  (c4_at_most_once_finalization 7 initialHandlerState (ev4 0 "He" false)
    (by decide)).1

/-- C5: with every playback attempt failing, the retry scheduler fires
exactly `MAX_DH_PLAY_RETRY = 6` retries, whose delays are
`[1500, 2250, 3375, 5062.5, 7593.75, 8000]` ms — each successive delay is
the previous one times 1.5 capped at 8000 ms, hence non-decreasing — and a
schedule request at the retry cap yields no further retry (a plain return,
no error). -/
theorem c5_retry_cap_and_backoff :
    dhRetryDelays 0 1500 =
      [1500, 2250, 3375, 10125 / 2, 30375 / 4, 8000] ∧
    (dhRetryDelays 0 1500).length = MAX_DH_PLAY_RETRY ∧
    List.Chain' (fun a b => b = nextRetryDelay a) (dhRetryDelays 0 1500) ∧
    List.Chain' (fun a b : ℚ => a ≤ b) (dhRetryDelays 0 1500) ∧
    dhRetryDelays MAX_DH_PLAY_RETRY 8000 = [] := by
  have h : dhRetryDelays 0 1500 =
      [1500, 2250, 3375, 10125 / 2, 30375 / 4, 8000] := by
    rw [dhRetryDelays]
    norm_num [MAX_DH_PLAY_RETRY, nextRetryDelay]
    rw [dhRetryDelays]
    norm_num [MAX_DH_PLAY_RETRY, nextRetryDelay]
    rw [dhRetryDelays]
    norm_num [MAX_DH_PLAY_RETRY, nextRetryDelay]
    rw [dhRetryDelays]
    norm_num [MAX_DH_PLAY_RETRY, nextRetryDelay]
    rw [dhRetryDelays]
    norm_num [MAX_DH_PLAY_RETRY, nextRetryDelay]
    rw [dhRetryDelays]
    norm_num [MAX_DH_PLAY_RETRY, nextRetryDelay]
    rw [dhRetryDelays]
    norm_num [MAX_DH_PLAY_RETRY, nextRetryDelay]
  refine ⟨h, ?_, ?_, ?_, ?_⟩
  · rw [h]; rfl
  · rw [h]
    simp [List.chain'_cons, nextRetryDelay]
    norm_num
  · rw [h]
    simp [List.chain'_cons]
    norm_num
  · rw [dhRetryDelays]
    norm_num [MAX_DH_PLAY_RETRY]

/-- C6: from the idle initial state, the event sequence [non-final
transcript, final transcript, response fragment, final response fragment]
drives the status through listening, thinking, speaking, idle in that
order, and the catch path of the handler resets any state's status to
idle. -/
theorem c6_status_round_trip (s : HandlerState) :
    initialHandlerState.ui.agentStatus = .idle ∧
    (runEvents 7 initialHandlerState (c6Events.take 1)).ui.agentStatus =
      .listening ∧
    (runEvents 7 initialHandlerState (c6Events.take 2)).ui.agentStatus =
      .thinking ∧
    (runEvents 7 initialHandlerState (c6Events.take 3)).ui.agentStatus =
      .speaking ∧
    (runEvents 7 initialHandlerState c6Events).ui.agentStatus = .idle ∧
    (handleRoomMessageCatch s).ui.agentStatus = .idle := by
  exact ⟨rfl, by decide, by decide, by decide, by decide, rfl⟩

/-- C6 witness: the catch path resets the initial state's status to idle. -/
theorem c6_witness :
    (handleRoomMessageCatch initialHandlerState).ui.agentStatus = .idle :=
  (c6_status_round_trip initialHandlerState).2.2.2.2.2

/-- C7 counterexample: `leaveRoom` on an active session with a tracked
playing stream does not empty the tracked-stream set — `leaveRoom` never
touches `playingStreamIds`, contradicting the claim that the set of
tracked remote streams is empty after leave. -/
theorem c7_counterexample :
    ¬ (leaveRoom activeSessionState true).playingStreamIds = [] := by
  decide

/-- C7 amended: after a successful `leaveRoom` on an active session no
retry timer is pending and the retry count is zero, the room/user refs and
the local stream are cleared, video readiness and the video stream id are
reset — but the tracked playing-stream set is left unchanged, not emptied;
leave is a no-op when no session is active; and the `endInterview`
dispatches reset the conversation status to idle. -/
theorem c7_teardown_amended (st : ZegoState) (ok : Bool) (ui : InterviewState) :
    (st.zgInit = true → st.currentRoomId ≠ none →
      ((leaveRoom st true).retryTimerPending = false ∧
        (leaveRoom st true).dhPlayRetryCount = 0 ∧
        (leaveRoom st true).currentRoomId = none ∧
        (leaveRoom st true).currentUserId = none ∧
        (leaveRoom st true).localStream = false ∧
        (leaveRoom st true).videoReady = false ∧
        (leaveRoom st true).dhVideoStreamId = none ∧
        (leaveRoom st true).playingStreamIds = st.playingStreamIds)) ∧
    ((st.zgInit = false ∨ st.currentRoomId = none) → leaveRoom st ok = st) ∧
    (endInterviewUI ui).agentStatus = .idle := by
  refine ⟨?_, ?_, rfl⟩
  · intro hzg hroom
    simp [leaveRoom, hzg, hroom]
  · intro hno
    simp [leaveRoom, hno]

/-- C7 witness: the amended teardown properties at the concrete active
session. -/
theorem c7_witness :
    (leaveRoom activeSessionState true).retryTimerPending = false ∧
    (leaveRoom activeSessionState true).dhPlayRetryCount = 0 ∧
    (leaveRoom activeSessionState true).currentRoomId = none ∧
    (leaveRoom activeSessionState true).currentUserId = none ∧
    (leaveRoom activeSessionState true).localStream = false ∧
    (leaveRoom activeSessionState true).videoReady = false ∧
    (leaveRoom activeSessionState true).dhVideoStreamId = none ∧
    (leaveRoom activeSessionState true).playingStreamIds =
      activeSessionState.playingStreamIds :=
  (c7_teardown_amended activeSessionState true ⟨[], "", .speaking⟩).1 rfl
    (by decide)

/-- C8: a playback request rejected by the transport with the
"already playing" code 1103049 returns success and leaves the stream
marked as playing, in all three playback functions. -/
theorem c8_already_playing_success (st : ZegoState) (sid : String) (g : Bool)
    (h1 : st.zgInit = true) (h2 : st.hasVideoElem = true)
    (h3 : st.hasAudioElem = true) :
    ((playUnifiedStream st sid (.err 1103049) g).1 = true ∧
      sid ∈ (playUnifiedStream st sid (.err 1103049) g).2.playingStreamIds) ∧
    ((playDigitalHumanVideoStream st sid (.err 1103049) g).1 = true ∧
      sid ∈ (playDigitalHumanVideoStream st sid
        (.err 1103049) g).2.playingStreamIds) ∧
    ((playAgentAudioStream st sid (.err 1103049)).1 = true ∧
      sid ∈ (playAgentAudioStream st sid (.err 1103049)).2.playingStreamIds) := by
  by_cases hmem : sid ∈ st.playingStreamIds <;>
    simp [playUnifiedStream, playDigitalHumanVideoStream, playAgentAudioStream,
      h1, h2, h3, hmem, setAdd_self_mem]

/-- C8 witness: the 1103049 convergence at a concrete session state. -/
theorem c8_witness :
    (playUnifiedStream activeSessionState "s_new" (.err 1103049) true).1 =
      true ∧
    "s_new" ∈ (playUnifiedStream activeSessionState "s_new"
      (.err 1103049) true).2.playingStreamIds :=
  (c8_already_playing_success activeSessionState "s_new" true rfl rfl rfl).1

/-- C9: a join targeting the already-active `(roomId, userId)` returns
success without changing state; a join targeting a different room/user
while a session is active first performs a full leave; and a failed join
resets the room/user refs to null and reports false. -/
theorem c9_join_idempotent (st : ZegoState) (r u : String) (o : JoinOutcome)
    (hzg : st.zgInit = true) :
    (st.currentRoomId = some r → st.currentUserId = some u →
      joinRoom st r u o = (true, st)) ∧
    (¬ (st.currentRoomId = some r ∧ st.currentUserId = some u) →
      st.currentRoomId ≠ none →
      joinRoom st r u o = joinRoomFresh (leaveRoom st true) r u o) ∧
    (¬ (st.currentRoomId = some r ∧ st.currentUserId = some u) →
      o ≠ .ok →
      ((joinRoom st r u o).1 = false ∧
        (joinRoom st r u o).2.currentRoomId = none ∧
        (joinRoom st r u o).2.currentUserId = none)) := by
  refine ⟨?_, ?_, ?_⟩
  · intro hr hu
    simp [joinRoom, hzg, hr, hu]
  · intro hne hroom
    simp [joinRoom, hzg, hne, hroom]
  · intro hne ho
    cases o <;> simp [joinRoom, joinRoomFresh, hzg, hne] at ho ⊢

/-- C9 witness: re-joining the same active session is a success no-op. -/
theorem c9_witness :
    joinRoom activeSessionState "room1" "u1" .ok = (true, activeSessionState) :=
  (c9_join_idempotent activeSessionState "room1" "u1" .ok rfl).1 rfl rfl

/-- C10: a TranscriptDelta whose text is absent, empty or whitespace-only
leaves the handler state completely unchanged, even when the end flag is
set — no user turn, no transcript update, no sequence-tracker or status
change. -/
theorem c10_whitespace_transcript_noop (now : Nat) (s : HandlerState)
    (e : RoomMsg) (h1 : e.cmd = 3) (h2 : jsTrim (e.text.getD "") = "") :
    handleRoomMessage now s e = s := by
  unfold handleRoomMessage
  cases htext : e.text with
  | none => simp [h1]
  | some t =>
    rw [htext] at h2
    simp only [Option.getD] at h2
    simp [h1, h2]

/-- C10 witness: a whitespace-only final transcript is a no-op on the
initial state. -/
theorem c10_witness :
    handleRoomMessage 7 initialHandlerState ⟨3, some 0, some "   ", true, some "m"⟩ =
      initialHandlerState :=
  c10_whitespace_transcript_noop 7 initialHandlerState
    ⟨3, some 0, some "   ", true, some "m"⟩ rfl (by decide)

end DigitalHuman
